import Mathlib

/-!
Verification development for the World Cup tournament simulator
(wcpredictor/src/tournament.py).  The Python code is shallowly embedded:
per-sample numpy vectors become functions out of `Fin S` (S = number of
simulated samples), numpy masked sums become filtered list sums, and Python
exceptions become `Except` values.
-/

namespace WCT

/-- One stored group-stage match: home and away team names plus per-sample
score vectors (the entries of the `results` dict of arrays built by
`Group.add_results`). -/
structure MatchResult (S : Nat) where
  home_team : String
  away_team : String
  home_score : Fin S → Nat
  away_score : Fin S → Nat

variable {S : Nat}

/-- Per-match, per-sample home points, as computed in `Group.calc_table`:
`home_pts = 3 * (home_score > away_score)` followed by the draw overwrite
`home_pts[draw] = 1`. -/
def home_pts (m : MatchResult S) (s : Fin S) : Nat :=
  if m.home_score s = m.away_score s then 1
  else 3 * (if m.away_score s < m.home_score s then 1 else 0)

/-- Per-match, per-sample away points, as computed in `Group.calc_table`:
`away_pts = 3 * (home_score < away_score)` followed by the draw overwrite
`away_pts[draw] = 1`. -/
def away_pts (m : MatchResult S) (s : Fin S) : Nat :=
  if m.home_score s = m.away_score s then 1
  else 3 * (if m.home_score s < m.away_score s then 1 else 0)

/-- Sum, over the stored matches in which the given team is at home, of a
per-match per-sample quantity.  This is the numpy masked sum
`quantity[self.results["home_team"] == team].sum(axis=0)`. -/
def home_mask_sum (results : List (MatchResult S)) (team : String)
    (f : MatchResult S → Fin S → Nat) (s : Fin S) : Nat :=
  ((results.filter (fun m => m.home_team == team)).map (fun m => f m s)).sum

/-- Sum over the stored matches in which the given team is away; the numpy
masked sum with mask `self.results["away_team"] == team`. -/
def away_mask_sum (results : List (MatchResult S)) (team : String)
    (f : MatchResult S → Fin S → Nat) (s : Fin S) : Nat :=
  ((results.filter (fun m => m.away_team == team)).map (fun m => f m s)).sum

/-- The group table built by `Group.calc_table`: rows are indexed by the
position of the team in the group team list, columns by sample. -/
structure Table (S : Nat) where
  points : Nat → Fin S → Nat
  goals_for : Nat → Fin S → Nat
  goals_against : Nat → Fin S → Nat
  goal_difference : Nat → Fin S → Int

/-- Embedding of `Group.calc_table`: for each team index, home and away
points and goals are summed across the stored matches of that team, per
sample,
and `goal_difference` is the difference of the `goals_for` and
`goals_against` rows. -/
def calc_table (teams : List String) (results : List (MatchResult S)) : Table S :=
  { points := fun i s =>
      home_mask_sum results (teams.getD i "") home_pts s
        + away_mask_sum results (teams.getD i "") away_pts s
    goals_for := fun i s =>
      home_mask_sum results (teams.getD i "") (fun m t => m.home_score t) s
        + away_mask_sum results (teams.getD i "") (fun m t => m.away_score t) s
    goals_against := fun i s =>
      home_mask_sum results (teams.getD i "") (fun m t => m.away_score t) s
        + away_mask_sum results (teams.getD i "") (fun m t => m.home_score t) s
    goal_difference := fun i s =>
      ((home_mask_sum results (teams.getD i "") (fun m t => m.home_score t) s
          + away_mask_sum results (teams.getD i "") (fun m t => m.away_score t) s : Nat) : Int)
        - ((home_mask_sum results (teams.getD i "") (fun m t => m.away_score t) s
          + away_mask_sum results (teams.getD i "") (fun m t => m.home_score t) s : Nat) : Int) }

/-- Composite per-team sort key for the default standings policy.  The call
`np.lexsort((rand, goals_for, goal_difference, points), axis=0)` sorts
ascending with `points` as the most significant key, then
`goal_difference`, then `goals_for`, then the random tiebreaker. -/
def sort_key (tbl : Table S) (rand : Nat → Fin S → Int) (s : Fin S) (i : Nat) :
    Int × Int × Int × Int :=
  ((tbl.points i s : Int), tbl.goal_difference i s, (tbl.goals_for i s : Int), rand i s)

/-- Lexicographic comparison of composite keys (first component most
significant), matching the ascending multi-key order of `np.lexsort`. -/
def KeyLe (a b : Int × Int × Int × Int) : Prop :=
  a.1 < b.1
    ∨ (a.1 = b.1
      ∧ (a.2.1 < b.2.1
        ∨ (a.2.1 = b.2.1
          ∧ (a.2.2.1 < b.2.2.1
            ∨ (a.2.2.1 = b.2.2.1 ∧ a.2.2.2 ≤ b.2.2.2)))))

instance (a b : Int × Int × Int × Int) : Decidable (KeyLe a b) := by
  unfold KeyLe
  infer_instance

/-- One sample column of `np.lexsort((rand, gf, gd, points), axis=0)`: the
list of team indices in ascending composite-key order (an argsort, not a
rank vector).  A stable sort, like the numpy one; modelled with the
(stable, structurally recursive) insertion sort. -/
def lexsort_column (tbl : Table S) (rand : Nat → Fin S → Int) (n : Nat) (s : Fin S) :
    List Nat :=
  (List.range n).insertionSort
    (fun i j => KeyLe (sort_key tbl rand s i) (sort_key tbl rand s j))

/-- Embedding of the default branch of `Group.calc_standings`:
`standings = len(teams) - np.lexsort(...)`, an array whose entry at
team-list index k and sample s is `n` minus the k-th entry of the argsort
column. -/
def standings_default (tbl : Table S) (rand : Nat → Fin S → Int) (n : Nat) :
    Nat → Fin S → Nat :=
  fun k s => n - (lexsort_column tbl rand n s).getD k 0

/-- Embedding of `np.nonzero(self.standings.T == r)[1]` restricted to one
sample: the unique index k with `standings[k, s] == r` (when the standings
column is a permutation there is exactly one such k per sample, so the
numpy row-major flattening lines the indices up with the samples). -/
def qualifier_index (standings : Nat → Fin S → Nat) (n r : Nat) (s : Fin S) : Nat :=
  (List.range n).findIdx (fun k => standings k s == r)

/-- Embedding of `Group.get_qualifiers` on an already-computed standings
array: `self.teams[first], self.teams[second]` where `first` and `second`
come from `np.nonzero(standings.T == 1)` and `== 2`. -/
def get_qualifiers (teams : List String) (standings : Nat → Fin S → Nat) :
    (Fin S → String) × (Fin S → String) :=
  (fun s => teams.getD (qualifier_index standings teams.length 1 s) "",
   fun s => teams.getD (qualifier_index standings teams.length 2 s) "")

/-- Team ranked r-th from the top (r = 1 is best) under the composite
ordering; stated from the words of the spec, for comparison with
`get_qualifiers`.  The argsort column is ascending, so the r-th best team
index sits at position `n - r`. -/
def composite_ranked_team (teams : List String) (tbl : Table S)
    (rand : Nat → Fin S → Int) (r : Nat) (s : Fin S) : String :=
  teams.getD ((lexsort_column tbl rand teams.length s).getD (teams.length - r) 0) ""

/-- State of a `Group` object as far as `calc_standings` is concerned. -/
structure PyGroup (S : Nat) where
  name : String
  teams : List String
  table : Option (Table S)
  standings : Option (Nat → Fin S → Nat)
  results : List (MatchResult S)

/-- Embedding of `Group.calc_standings`: the table is computed first when
absent (a mutation that persists even when the call then raises), then the
default branch stores the vectorised standings while `head_to_head=True`
raises `NotImplementedError` at once.  The error value carries the group
state at raise time, mirroring the Python mutations that survive the
exception. -/
def calc_standings (g : PyGroup S) (head_to_head : Bool) (rand : Nat → Fin S → Int) :
    Except (String × PyGroup S) (PyGroup S) :=
  let tbl : Table S :=
    match g.table with
    | some t => t
    | none => calc_table g.teams g.results
  let g1 : PyGroup S := { g with table := some tbl }
  if head_to_head = false then
    Except.ok { g1 with standings := some (standings_default tbl rand g1.teams.length) }
  else
    Except.error ("NotImplementedError: Not updated head-to-head logic", g1)

/-- Standings dictionary of the head-to-head cascade: maps a position name
to the stored team; `none` models the Python `None`. -/
def Standings : Type := String → Option String

/-- Store a team under a position name. -/
def update_standings (st : Standings) (pos team : String) : Standings :=
  fun p => if p = pos then some team else st p

/-- Python truthiness of a standings entry: `None` and the empty string are
falsy, every other string is truthy. -/
def py_truthy : Option String → Bool
  | none => false
  | some s => !s.isEmpty

/-- Embedding of `Group.fill_standings_position`: a `RuntimeError` when the
slot already holds a truthy value, otherwise the team is stored. -/
def fill_standings_position (st : Standings) (team pos : String) :
    Except String Standings :=
  if py_truthy (st pos) then
    Except.error ("Position " ++ pos ++ " is already filled!")
  else
    Except.ok (update_standings st pos team)

/-- Python list indexing: an out-of-range index raises `IndexError`. -/
def py_get (l : List String) (i : Nat) : Except String String :=
  match l[i]? with
  | some x => Except.ok x
  | none => Except.error "IndexError: list index out of range"

/-- The loop `for i, pos in enumerate(positions_to_fill)` of the random
branch of `set_positions_using_metric`: positions are filled in order with
the i-th entry of the shuffled team list. -/
def fill_enum (teams : List String) :
    Standings → List String → Nat → Except String Standings
  | st, [], _ => Except.ok st
  | st, p :: rest, i =>
    match teams[i]? with
    | none => Except.error "IndexError: list index out of range"
    | some t =>
      match fill_standings_position st t p with
      | Except.error e => Except.error e
      | Except.ok st1 => fill_enum teams st1 rest (i + 1)

/-- The ordered metric list `self.metrics` of a `Group`. -/
def metrics : List String :=
  ["points", "goal_difference", "goals_for", "head-to-head", "random"]

/-- Embedding of `self.metrics[self.metrics.index(metric) + 1]`: `none`
models the `ValueError` of `.index` on an unknown metric (and the
out-of-range case, which the control flow never reaches). -/
def next_metric (m : String) : Option String :=
  if m ∈ metrics then metrics[metrics.indexOf m + 1]? else none

/-- Distance of a metric from the terminal `random` metric; the
termination measure of the cascade (not part of the embedding). -/
def metric_rank (m : String) : Nat :=
  if m = "random" then 0
  else if m = "head-to-head" then 1
  else if m = "goals_for" then 2
  else if m = "goal_difference" then 3
  else 4

/-- External effects reached from `set_positions_using_metric`:
`random.shuffle`, the head-to-head lookup (`find_head_to_head_winner`
iterates a results format that `add_results` no longer produces, so it is
kept abstract and may return a winner pair, no winner, or raise), the
per-team per-metric table entry lookup, and `utils.sort_teams_by` (a
repository function outside this source tree), which is expected to order
the teams best-first by the metric but is quantified over here. -/
structure SortEnv where
  shuffle : List String → List String
  h2h_winner : String → String → Except String (Option (String × String))
  tbl : String → String → Int
  sort_by : (String → String → Int) → List String → String → List String

/-- Thread a fill result into a continuation (fuelled evaluation). -/
def bind_fill (r : Except String Standings)
    (k : Standings → Option (Except String Standings)) :
    Option (Except String Standings) :=
  match r with
  | Except.error e => some (Except.error e)
  | Except.ok st => k st

/-- Thread a recursive-call result into a continuation. -/
def bind_call (r : Option (Except String Standings))
    (k : Standings → Option (Except String Standings)) :
    Option (Except String Standings) :=
  match r with
  | none => none
  | some (Except.error e) => some (Except.error e)
  | some (Except.ok st) => k st

/-- One unfolding of `Group.set_positions_using_metric`, parameterised by
the recursive call.  Faithful to the source: the length guard raises, the
`random` branch shuffles and fills every position, the head-to-head branch
skips to `random` for more than two teams or an undecided pair, and the
remaining metrics sort the teams and run the 2-, 3- or 4-team
equality-pattern case analysis, where resolved positions are filled (the
4-team branch fills the literal position names, as the source does) and
tied subsets recurse with the next metric.  A team list of any other
length falls through every branch and the call returns without filling,
like the Python function body running off its end. -/
def spum_step (env : SortEnv)
    (recurse : Standings → List String → List String → String →
      Option (Except String Standings))
    (st : Standings) (teams_to_sort positions_to_fill : List String)
    (metric : String) : Option (Except String Standings) :=
  if teams_to_sort.length ≠ positions_to_fill.length then
    some (Except.error "RuntimeError: cannot fill positions with a different number of teams")
  else if metric = "random" then
    some (fill_enum (env.shuffle teams_to_sort) st positions_to_fill 0)
  else if metric = "head-to-head" then
    if 2 < teams_to_sort.length then
      recurse st teams_to_sort positions_to_fill "random"
    else
      match teams_to_sort with
      | [tA, tB] =>
        (match env.h2h_winner tA tB with
        | Except.error e => some (Except.error e)
        | Except.ok (some (t1, t2)) =>
          bind_fill (py_get positions_to_fill 0 >>= fill_standings_position st t1)
            (fun st1 =>
              some (py_get positions_to_fill 1 >>= fill_standings_position st1 t2))
        | Except.ok none => recurse st teams_to_sort positions_to_fill "random")
      | _ => some (Except.error "IndexError: list index out of range")
  else
    match next_metric metric with
    | none => some (Except.error "ValueError: metric is not in list")
    | some new_metric =>
      let team_list := env.sort_by env.tbl teams_to_sort metric
      let score : String → Int := fun t => env.tbl t metric
      match team_list with
      | [t0, t1] =>
        if score t1 < score t0 then
          bind_fill (py_get positions_to_fill 0 >>= fill_standings_position st t0)
            (fun st1 =>
              some (py_get positions_to_fill 1 >>= fill_standings_position st1 t1))
        else
          recurse st team_list positions_to_fill new_metric
      | [t0, t1, t2] =>
        if score t1 < score t0 ∧ score t2 < score t1 then
          bind_fill (py_get positions_to_fill 0 >>= fill_standings_position st t0)
            (fun st1 =>
              bind_fill (py_get positions_to_fill 1 >>= fill_standings_position st1 t1)
                (fun st2 =>
                  some (py_get positions_to_fill 2 >>= fill_standings_position st2 t2)))
        else if score t1 < score t0 ∧ score t1 = score t2 then
          bind_fill (py_get positions_to_fill 0 >>= fill_standings_position st t0)
            (fun st1 =>
              recurse st1 [t1, t2] (positions_to_fill.drop 1) new_metric)
        else if score t0 = score t1 ∧ score t2 < score t1 then
          bind_fill (py_get positions_to_fill 2 >>= fill_standings_position st t2)
            (fun st1 =>
              recurse st1 [t0, t1] (positions_to_fill.take 2) new_metric)
        else
          recurse st team_list positions_to_fill new_metric
      | [t0, t1, t2, t3] =>
        if score t1 < score t0 ∧ score t2 < score t1 ∧ score t3 < score t2 then
          bind_fill (fill_standings_position st t0 "1st")
            (fun st1 =>
              bind_fill (fill_standings_position st1 t1 "2nd")
                (fun st2 =>
                  bind_fill (fill_standings_position st2 t2 "3rd")
                    (fun st3 => some (fill_standings_position st3 t3 "4th"))))
        else if score t0 = score t1 ∧ score t2 < score t1 ∧ score t3 < score t2 then
          bind_fill (fill_standings_position st t2 "3rd")
            (fun st1 =>
              bind_fill (fill_standings_position st1 t3 "4th")
                (fun st2 =>
                  recurse st2 [t0, t1] (positions_to_fill.take 2) new_metric))
        else if score t1 < score t0 ∧ score t1 = score t2 ∧ score t3 < score t2 then
          bind_fill (fill_standings_position st t0 "1st")
            (fun st1 =>
              bind_fill (fill_standings_position st1 t3 "4th")
                (fun st2 =>
                  recurse st2 [t1, t2] ((positions_to_fill.drop 1).take 2) new_metric))
        else if score t1 < score t0 ∧ score t2 < score t1 ∧ score t2 = score t3 then
          bind_fill (fill_standings_position st t0 "1st")
            (fun st1 =>
              bind_fill (fill_standings_position st1 t1 "2nd")
                (fun st2 =>
                  recurse st2 [t2, t3] (positions_to_fill.drop 2) new_metric))
        else if score t0 = score t1 ∧ score t1 = score t2 ∧ score t3 < score t2 then
          bind_fill (fill_standings_position st t3 "4th")
            (fun st1 =>
              recurse st1 [t0, t1, t2] (positions_to_fill.take 3) new_metric)
        else if score t1 < score t0 ∧ score t1 = score t2 ∧ score t2 = score t3 then
          bind_fill (fill_standings_position st t0 "1st")
            (fun st1 =>
              recurse st1 [t1, t2, t3] (positions_to_fill.drop 1) new_metric)
        else if score t0 = score t1 ∧ score t2 < score t1 ∧ score t2 = score t3 then
          bind_call (recurse st [t0, t1] (positions_to_fill.take 2) new_metric)
            (fun st1 =>
              recurse st1 [t2, t3] (positions_to_fill.drop 2) new_metric)
        else
          recurse st team_list positions_to_fill new_metric
      | _ => some (Except.ok st)

/-- Fuelled embedding of `Group.set_positions_using_metric`; `none` means
the fuel bound on the recursion depth was exceeded. -/
def set_positions_using_metric (env : SortEnv) :
    Nat → Standings → List String → List String → String →
      Option (Except String Standings)
  | 0, _, _, _, _ => none
  | Nat.succ fuel, st, ts, ps, m =>
    spum_step env (set_positions_using_metric env fuel) st ts ps m

theorem metric_rank_lt_length (m : String) : metric_rank m < metrics.length := by
  unfold metric_rank metrics
  split_ifs <;> simp

theorem next_metric_rank {m nm : String} (h : next_metric m = some nm) :
    metric_rank nm < metric_rank m := by
  have hm : m ∈ metrics := by
    by_contra hc
    simp [next_metric, hc] at h
  simp only [metrics, List.mem_cons, List.not_mem_nil, or_false] at hm
  rcases hm with rfl | rfl | rfl | rfl | rfl
  · have hv : next_metric "points" = some "goal_difference" := by decide
    rw [hv] at h
    cases h
    decide
  · have hv : next_metric "goal_difference" = some "goals_for" := by decide
    rw [hv] at h
    cases h
    decide
  · have hv : next_metric "goals_for" = some "head-to-head" := by decide
    rw [hv] at h
    cases h
    decide
  · have hv : next_metric "head-to-head" = some "random" := by decide
    rw [hv] at h
    cases h
    decide
  · have hv : next_metric "random" = (none : Option String) := by decide
    rw [hv] at h
    cases h

theorem bind_fill_isSome (r : Except String Standings)
    (k : Standings → Option (Except String Standings))
    (hk : ∀ st, (k st).isSome) : (bind_fill r k).isSome := by
  rcases r with e | st
  · rfl
  · exact hk st

theorem bind_call_isSome (r : Option (Except String Standings))
    (k : Standings → Option (Except String Standings))
    (hr : r.isSome) (hk : ∀ st, (k st).isSome) : (bind_call r k).isSome := by
  rcases r with _ | r
  · simp [Option.isSome] at hr
  · rcases r with e | st
    · rfl
    · exact hk st

theorem spum_step_isSome (env : SortEnv)
    (recurse : Standings → List String → List String → String →
      Option (Except String Standings))
    (st : Standings) (ts ps : List String) (m : String)
    (h : ∀ st2 ts2 ps2 m2, metric_rank m2 < metric_rank m →
      (recurse st2 ts2 ps2 m2).isSome) :
    (spum_step env recurse st ts ps m).isSome := by
  unfold spum_step
  rcases Decidable.em (ts.length ≠ ps.length) with hlen | hlen
  · rw [if_pos hlen]
    rfl
  rw [if_neg hlen]
  rcases Decidable.em (m = "random") with hrand | hrand
  · rw [if_pos hrand]
    rfl
  rw [if_neg hrand]
  rcases Decidable.em (m = "head-to-head") with hh | hh
  · rw [if_pos hh]
    have hr : metric_rank "random" < metric_rank m := by rw [hh]; decide
    rcases Decidable.em (2 < ts.length) with hgt | hgt
    · rw [if_pos hgt]
      exact h _ _ _ _ hr
    · rw [if_neg hgt]
      rcases ts with _ | ⟨a, _ | ⟨b, _ | ⟨c, rest⟩⟩⟩
      · rfl
      · rfl
      · dsimp only
        cases henv : env.h2h_winner a b with
        | error e => rfl
        | ok w =>
          rcases w with _ | ⟨t1, t2⟩
          · exact h _ _ _ _ hr
          · exact bind_fill_isSome _ _ (fun st1 => rfl)
      · rfl
  · rw [if_neg hh]
    cases hnm : next_metric m with
    | none => rfl
    | some nm =>
      have hlt : metric_rank nm < metric_rank m := next_metric_rank hnm
      dsimp only
      rcases hsort : env.sort_by env.tbl ts m with
        _ | ⟨t0, _ | ⟨t1, _ | ⟨t2, _ | ⟨t3, _ | ⟨t4, rest⟩⟩⟩⟩⟩
      · rfl
      · rfl
      · dsimp only
        split_ifs with h1
        · exact bind_fill_isSome _ _ (fun st1 => rfl)
        · exact h _ _ _ _ hlt
      · dsimp only
        split_ifs with h1 h2 h3
        · exact bind_fill_isSome _ _ (fun st1 => bind_fill_isSome _ _ (fun st2 => rfl))
        · exact bind_fill_isSome _ _ (fun st1 => h _ _ _ _ hlt)
        · exact bind_fill_isSome _ _ (fun st1 => h _ _ _ _ hlt)
        · exact h _ _ _ _ hlt
      · dsimp only
        split_ifs with h1 h2 h3 h4 h5 h6 h7
        · exact bind_fill_isSome _ _ (fun st1 => bind_fill_isSome _ _ (fun st2 =>
            bind_fill_isSome _ _ (fun st3 => rfl)))
        · exact bind_fill_isSome _ _ (fun st1 => bind_fill_isSome _ _ (fun st2 =>
            h _ _ _ _ hlt))
        · exact bind_fill_isSome _ _ (fun st1 => bind_fill_isSome _ _ (fun st2 =>
            h _ _ _ _ hlt))
        · exact bind_fill_isSome _ _ (fun st1 => bind_fill_isSome _ _ (fun st2 =>
            h _ _ _ _ hlt))
        · exact bind_fill_isSome _ _ (fun st1 => h _ _ _ _ hlt)
        · exact bind_fill_isSome _ _ (fun st1 => h _ _ _ _ hlt)
        · exact bind_call_isSome _ _ (h _ _ _ _ hlt) (fun st1 => h _ _ _ _ hlt)
        · exact h _ _ _ _ hlt
      · rfl

theorem set_positions_using_metric_isSome (env : SortEnv) :
    ∀ fuel m, metric_rank m < fuel →
      ∀ st ts ps, (set_positions_using_metric env fuel st ts ps m).isSome := by
  intro fuel
  induction fuel with
  | zero =>
    intro m hm st ts ps
    exact absurd hm (Nat.not_lt_zero _)
  | succ f ih =>
    intro m hm st ts ps
    exact spum_step_isSome env _ st ts ps m
      (fun st2 ts2 ps2 m2 h2 => ih m2 (by omega) st2 ts2 ps2)

/-- C5: every call to `set_positions_using_metric` with equally many teams
and positions terminates within recursion depth `metrics.length` (each
recursive call moves to a strictly later metric in the list, the team
subset never grows), and the `random` metric never recurses at all (fuel
for zero further calls suffices).  Quantified over every shuffle,
head-to-head oracle, table and sorter, so the conclusion does not depend
on the behaviour of `utils.sort_teams_by`. -/
theorem set_positions_using_metric_terminates (env : SortEnv)
    (st : Standings) (ts ps : List String) (m : String)
    (hlen : ts.length = ps.length) :
    (set_positions_using_metric env metrics.length st ts ps m).isSome
    ∧ ∀ st2 ts2 ps2,
        (set_positions_using_metric env 1 st2 ts2 ps2 "random").isSome := by
  constructor
  · exact set_positions_using_metric_isSome env metrics.length m
      (metric_rank_lt_length m) st ts ps
  · intro st2 ts2 ps2
    exact set_positions_using_metric_isSome env 1 "random" (by decide) st2 ts2 ps2

/-- Concrete environment used by witnesses: identity shuffle, no
head-to-head winner, constant table, identity sorter. -/
def sampleEnv : SortEnv :=
  { shuffle := fun l => l
    h2h_winner := fun _ _ => Except.ok none
    tbl := fun _ _ => 0
    sort_by := fun _ l _ => l }

/-- Witness for C5 at a concrete call. -/
theorem set_positions_using_metric_terminates_witness :
    (["AAA", "BBB", "CCC", "DDD"] : List String).length
        = (["1st", "2nd", "3rd", "4th"] : List String).length
    ∧ (set_positions_using_metric sampleEnv metrics.length (fun _ => none)
        ["AAA", "BBB", "CCC", "DDD"] ["1st", "2nd", "3rd", "4th"] "points").isSome := by
  refine ⟨rfl, ?_⟩
  exact (set_positions_using_metric_terminates sampleEnv (fun _ => none)
    ["AAA", "BBB", "CCC", "DDD"] ["1st", "2nd", "3rd", "4th"] "points" rfl).1

/-- C6: filling a standings position that already holds a team raises the
`RuntimeError` instead of overwriting it.  The stored name must be
nonempty: the Python test is a truthiness test, so an empty-string entry
would count as unfilled. -/
theorem fill_standings_position_already_filled (st : Standings) (team pos occ : String)
    (hocc : st pos = some occ) (hne : occ ≠ "") :
    fill_standings_position st team pos
      = Except.error ("Position " ++ pos ++ " is already filled!") := by
  unfold fill_standings_position
  have ht : py_truthy (st pos) = true := by
    rw [hocc]
    unfold py_truthy
    simp only [Bool.not_eq_true']
    cases hc : occ.isEmpty
    · rfl
    · exact absurd ((String.isEmpty_iff occ).mp hc) hne
  rw [if_pos ht]

/-- Witness for C6 at a concrete standings state. -/
theorem fill_standings_position_already_filled_witness :
    (update_standings (fun _ => none) "1st" "AAA") "1st" = some "AAA"
    ∧ fill_standings_position (update_standings (fun _ => none) "1st" "AAA") "BBB" "1st"
        = Except.error ("Position " ++ "1st" ++ " is already filled!") := by
  refine ⟨rfl, ?_⟩
  exact fill_standings_position_already_filled _ "BBB" "1st" "AAA" rfl (by decide)

/-- C7: calling `calc_standings` with `head_to_head=True` raises the
`NotImplementedError` and never assigns default-policy standings: the
group state carried by the error has the original standings field. -/
theorem calc_standings_head_to_head_raises (g : PyGroup S) (rand : Nat → Fin S → Int) :
    ∃ g1 : PyGroup S,
      calc_standings g true rand
          = Except.error ("NotImplementedError: Not updated head-to-head logic", g1)
        ∧ g1.standings = g.standings := by
  exact ⟨_, rfl, rfl⟩

theorem KeyLe_total (a b : Int × Int × Int × Int) : KeyLe a b ∨ KeyLe b a := by
  unfold KeyLe
  omega

theorem KeyLe_trans (a b c : Int × Int × Int × Int) (h1 : KeyLe a b) (h2 : KeyLe b c) :
    KeyLe a c := by
  unfold KeyLe at h1 h2 ⊢
  omega

theorem lexsort_column_perm (tbl : Table S) (rand : Nat → Fin S → Int) (n : Nat)
    (s : Fin S) : (lexsort_column tbl rand n s).Perm (List.range n) :=
  List.perm_insertionSort _ _

theorem lexsort_column_length (tbl : Table S) (rand : Nat → Fin S → Int) (n : Nat)
    (s : Fin S) : (lexsort_column tbl rand n s).length = n := by
  rw [(lexsort_column_perm tbl rand n s).length_eq, List.length_range]

theorem lexsort_column_sorted (tbl : Table S) (rand : Nat → Fin S → Int) (n : Nat)
    (s : Fin S) :
    (lexsort_column tbl rand n s).Sorted
      (fun i j => KeyLe (sort_key tbl rand s i) (sort_key tbl rand s j)) := by
  haveI : IsTotal Nat (fun i j => KeyLe (sort_key tbl rand s i) (sort_key tbl rand s j)) :=
    ⟨fun i j => KeyLe_total _ _⟩
  haveI : IsTrans Nat (fun i j => KeyLe (sort_key tbl rand s i) (sort_key tbl rand s j)) :=
    ⟨fun i j k => KeyLe_trans _ _ _⟩
  exact List.sorted_insertionSort _ _

theorem map_getD_range (l : List Nat) :
    (List.range l.length).map (fun k => l.getD k 0) = l := by
  apply List.ext_getElem
  · rw [List.length_map, List.length_range]
  · intro i h1 h2
    rw [List.getElem_map, List.getElem_range, List.getD_eq_getElem?_getD,
      List.getElem?_eq_getElem h2]
    rfl

theorem standings_default_column (tbl : Table S) (rand : Nat → Fin S → Int) (n : Nat)
    (s : Fin S) :
    (List.range n).map (fun k => standings_default tbl rand n k s)
      = (lexsort_column tbl rand n s).map (fun v => n - v) := by
  conv_rhs => rw [← map_getD_range (lexsort_column tbl rand n s), List.map_map,
    lexsort_column_length tbl rand n s]
  rfl

/-- The default branch of `calc_standings` stores exactly
`standings_default` over the computed table. -/
theorem calc_standings_default_eq (g : PyGroup S) (rand : Nat → Fin S → Int) :
    ∃ tbl : Table S,
      calc_standings g false rand
        = Except.ok { g with
            table := some tbl
            standings := some (standings_default tbl rand g.teams.length) } :=
  ⟨_, rfl⟩

/-- C2: for every table, every random tiebreaker and every sample, the
default-policy standings column is a permutation of the ranks 1..4: each
rank is assigned to exactly one of the four team indices, none empty, none
duplicated, so the position-to-team assignment is a bijection. -/
theorem calc_standings_default_bijection (tbl : Table S) (rand : Nat → Fin S → Int)
    (s : Fin S) :
    ((List.range 4).map (fun k => standings_default tbl rand 4 k s)).Perm [1, 2, 3, 4]
    ∧ ∀ p ∈ [1, 2, 3, 4], ∃! k, k < 4 ∧ standings_default tbl rand 4 k s = p := by
  have hperm := lexsort_column_perm tbl rand 4 s
  have hclen := lexsort_column_length tbl rand 4 s
  have hmain : ((List.range 4).map (fun k => standings_default tbl rand 4 k s)).Perm
      [1, 2, 3, 4] := by
    rw [standings_default_column tbl rand 4 s]
    refine ((hperm.map (fun v => 4 - v)).trans ?_)
    decide
  refine ⟨hmain, ?_⟩
  intro p hp
  have hpmem : p ∈ (List.range 4).map (fun k => standings_default tbl rand 4 k s) :=
    hmain.mem_iff.mpr hp
  obtain ⟨k, hkr, hkp⟩ := List.mem_map.mp hpmem
  have hk4 : k < 4 := List.mem_range.mp hkr
  have hgetD : ∀ i, (hi : i < 4) → (lexsort_column tbl rand 4 s).getD i 0
      = (lexsort_column tbl rand 4 s).get ⟨i, by omega⟩ := by
    intro i hi
    rw [List.getD_eq_getElem?_getD,
      List.getElem?_eq_getElem (show i < (lexsort_column tbl rand 4 s).length by omega)]
    rfl
  have hnodup : (lexsort_column tbl rand 4 s).Nodup :=
    hperm.nodup_iff.mpr (List.nodup_range 4)
  have hmem4 : ∀ i, (hi : i < 4) → (lexsort_column tbl rand 4 s).getD i 0 < 4 := by
    intro i hi
    rw [hgetD i hi]
    exact List.mem_range.mp (hperm.subset (List.get_mem _ _ _))
  refine ⟨k, ⟨hk4, hkp⟩, ?_⟩
  rintro k2 ⟨hk24, hk2p⟩
  have e1 : 4 - (lexsort_column tbl rand 4 s).getD k2 0
      = 4 - (lexsort_column tbl rand 4 s).getD k 0 := by
    have u1 : standings_default tbl rand 4 k s
        = 4 - (lexsort_column tbl rand 4 s).getD k 0 := rfl
    have u2 : standings_default tbl rand 4 k2 s
        = 4 - (lexsort_column tbl rand 4 s).getD k2 0 := rfl
    rw [← u1, ← u2, hkp, hk2p]
  have e2 : (lexsort_column tbl rand 4 s).get ⟨k2, by omega⟩
      = (lexsort_column tbl rand 4 s).get ⟨k, by omega⟩ := by
    rw [← hgetD k2 hk24, ← hgetD k hk4]
    have b1 := hmem4 k hk4
    have b2 := hmem4 k2 hk24
    omega
  exact congrArg Fin.val (hnodup.get_inj_iff.mp e2)

/-- Table of a group with four teams and no stored results, used by
witnesses. -/
def witTable : Table 1 := calc_table ["AAA", "BBB", "CCC", "DDD"] []

/-- Witness for C2 at a concrete table, tiebreaker, sample and rank. -/
theorem calc_standings_default_bijection_witness :
    (2 : Nat) ∈ [1, 2, 3, 4]
    ∧ ∃! k, k < 4 ∧ standings_default witTable (fun _ _ => 0) 4 k 0 = 2 := by
  refine ⟨by decide, ?_⟩
  exact (calc_standings_default_bijection witTable (fun _ _ => 0) 0).2 2 (by decide)

theorem lexsort_column_getD (tbl : Table S) (rand : Nat → Fin S → Int) (n : Nat)
    (s : Fin S) (i : Nat) (hi : i < n) :
    (lexsort_column tbl rand n s).getD i 0
      = (lexsort_column tbl rand n s).get ⟨i, by rw [lexsort_column_length]; exact hi⟩ := by
  rw [List.getD_eq_getElem?_getD, List.getElem?_eq_getElem
    (show i < (lexsort_column tbl rand n s).length by rw [lexsort_column_length]; exact hi)]
  rfl

theorem lexsort_getD_lt (tbl : Table S) (rand : Nat → Fin S → Int) (n : Nat)
    (s : Fin S) (i : Nat) (hi : i < n) :
    (lexsort_column tbl rand n s).getD i 0 < n := by
  rw [lexsort_column_getD tbl rand n s i hi]
  exact List.mem_range.mp ((lexsort_column_perm tbl rand n s).subset (List.get_mem _ _ _))

theorem lexsort_getD_ne (tbl : Table S) (rand : Nat → Fin S → Int) (n : Nat)
    (s : Fin S) (p q : Nat) (hp : p < n) (hq : q < n) (hpq : p ≠ q) :
    (lexsort_column tbl rand n s).getD p 0 ≠ (lexsort_column tbl rand n s).getD q 0 := by
  rw [lexsort_column_getD tbl rand n s p hp, lexsort_column_getD tbl rand n s q hq]
  intro he
  have hnodup : (lexsort_column tbl rand n s).Nodup :=
    (lexsort_column_perm tbl rand n s).nodup_iff.mpr (List.nodup_range n)
  exact hpq (congrArg Fin.val (hnodup.get_inj_iff.mp he))

theorem lexsort_getD_sorted (tbl : Table S) (rand : Nat → Fin S → Int) (n : Nat)
    (s : Fin S) (p q : Nat) (hp : p < n) (hq : q < n) (hpq : p < q) :
    KeyLe (sort_key tbl rand s ((lexsort_column tbl rand n s).getD p 0))
      (sort_key tbl rand s ((lexsort_column tbl rand n s).getD q 0)) := by
  rw [lexsort_column_getD tbl rand n s p hp, lexsort_column_getD tbl rand n s q hq]
  exact (lexsort_column_sorted tbl rand n s).rel_get_of_lt (Fin.mk_lt_mk.mpr hpq)

/-- C8: when the computed per-sample points of the four teams are strictly
decreasing in team order, the default-policy standings rank the teams in
exactly that order (team k gets rank k+1) for every sample, whatever the
goal difference, goals for and random tiebreaker values are. -/
theorem standings_default_strict_points (tbl : Table S) (rand : Nat → Fin S → Int)
    (hpts : ∀ s : Fin S, tbl.points 3 s < tbl.points 2 s
        ∧ tbl.points 2 s < tbl.points 1 s ∧ tbl.points 1 s < tbl.points 0 s)
    (s : Fin S) (k : Nat) (hk : k < 4) :
    standings_default tbl rand 4 k s = k + 1 := by
  have hpts_mono : ∀ a b, a < 4 → b < 4 → tbl.points a s ≤ tbl.points b s → b ≤ a := by
    intro a b ha hb hle
    obtain ⟨h1, h2, h3⟩ := hpts s
    by_contra hab
    push_neg at hab
    interval_cases a <;> interval_cases b <;> omega
  have hdec : ∀ p q, p < 4 → q < 4 → p < q →
      (lexsort_column tbl rand 4 s).getD q 0 ≤ (lexsort_column tbl rand 4 s).getD p 0 := by
    intro p q hp hq hpq
    have hrel := lexsort_getD_sorted tbl rand 4 s p q hp hq hpq
    have hle : (tbl.points ((lexsort_column tbl rand 4 s).getD p 0) s : Int)
        ≤ (tbl.points ((lexsort_column tbl rand 4 s).getD q 0) s : Int) := by
      simp only [KeyLe, sort_key] at hrel
      omega
    exact hpts_mono _ _ (lexsort_getD_lt tbl rand 4 s p hp)
      (lexsort_getD_lt tbl rand 4 s q hq) (by exact_mod_cast hle)
  have h01 := hdec 0 1 (by omega) (by omega) (by omega)
  have h12 := hdec 1 2 (by omega) (by omega) (by omega)
  have h23 := hdec 2 3 (by omega) (by omega) (by omega)
  have d01 := lexsort_getD_ne tbl rand 4 s 0 1 (by omega) (by omega) (by omega)
  have d12 := lexsort_getD_ne tbl rand 4 s 1 2 (by omega) (by omega) (by omega)
  have d23 := lexsort_getD_ne tbl rand 4 s 2 3 (by omega) (by omega) (by omega)
  have m0 := lexsort_getD_lt tbl rand 4 s 0 (by omega)
  have m1 := lexsort_getD_lt tbl rand 4 s 1 (by omega)
  have m2 := lexsort_getD_lt tbl rand 4 s 2 (by omega)
  have m3 := lexsort_getD_lt tbl rand 4 s 3 (by omega)
  have hu : standings_default tbl rand 4 k s
      = 4 - (lexsort_column tbl rand 4 s).getD k 0 := rfl
  rw [hu]
  interval_cases k <;> omega

/-- Table with strictly decreasing points [9,6,3,0] and assorted other
columns, used by the C8 witness. -/
def strictTable : Table 1 :=
  { points := fun i _ => [9, 6, 3, 0].getD i 0
    goals_for := fun i _ => [1, 7, 2, 5].getD i 0
    goals_against := fun i _ => [6, 1, 2, 3].getD i 0
    goal_difference := fun i _ => [-5, 6, 0, 2].getD i 0 }

/-- Witness for C8 at a concrete table and rank. -/
theorem standings_default_strict_points_witness :
    (∀ s : Fin 1, strictTable.points 3 s < strictTable.points 2 s
        ∧ strictTable.points 2 s < strictTable.points 1 s
        ∧ strictTable.points 1 s < strictTable.points 0 s)
    ∧ standings_default strictTable (fun _ _ => 5) 4 0 0 = 0 + 1 := by
  refine ⟨by decide, ?_⟩
  exact standings_default_strict_points strictTable (fun _ _ => 5) (by decide) 0 0 (by omega)

/-- Four-team roster used by the C1 evidence. -/
def bugTeams : List String := ["AAA", "BBB", "CCC", "DDD"]

/-- One-sample match result with constant scores. -/
def mkMatch1 (h a : String) (hs as : Nat) : MatchResult 1 :=
  ⟨h, a, fun _ => hs, fun _ => as⟩

/-- Six played matches, all decided 1-0: AAA beats everyone, DDD beats BBB
and CCC, CCC beats BBB.  Resulting points: AAA 9, BBB 0, CCC 3, DDD 6. -/
def bugResults : List (MatchResult 1) :=
  [ mkMatch1 "AAA" "BBB" 1 0
  , mkMatch1 "AAA" "CCC" 1 0
  , mkMatch1 "AAA" "DDD" 1 0
  , mkMatch1 "DDD" "BBB" 1 0
  , mkMatch1 "DDD" "CCC" 1 0
  , mkMatch1 "CCC" "BBB" 1 0 ]

/-- Table computed by `calc_table` for the C1 evidence group. -/
def bugTable : Table 1 := calc_table bugTeams bugResults

/-- Constant random tiebreaker (points are distinct, so it never matters
here). -/
def bugRand : Nat → Fin 1 → Int := fun _ _ => 0

/-- C1 evidence: on this computed table `get_qualifiers` returns CCC
(3 points) and BBB (0 points), although the teams ranked 1st and 2nd under
the composite ordering are AAA (9 points) and DDD (6 points).  The
standings array stores `4 - argsort`, which only coincides with the rank
vector that `get_qualifiers` reads when the argsort permutation is an
involution; here the permutation is the 4-cycle [1, 2, 3, 0]. -/
theorem get_qualifiers_not_top_ranked :
    bugTable.points 0 0 = 9 ∧ bugTable.points 1 0 = 0
    ∧ bugTable.points 2 0 = 3 ∧ bugTable.points 3 0 = 6
    ∧ (get_qualifiers bugTeams (standings_default bugTable bugRand 4)).1 0 = "CCC"
    ∧ (get_qualifiers bugTeams (standings_default bugTable bugRand 4)).2 0 = "BBB"
    ∧ composite_ranked_team bugTeams bugTable bugRand 1 0 = "AAA"
    ∧ composite_ranked_team bugTeams bugTable bugRand 2 0 = "DDD" := by
  decide

/-- Tournament state reached after the knockout stages, as read by
`get_furthest_position_for_team`: alias columns in insertion order, the
completion flag, and the per-sample winner vector. -/
structure PyTournament (S : Nat) where
  aliases : List (String × (Fin S → String))
  is_complete : Bool
  winner : Fin S → String

/-- Embedding of `Tournament.get_furthest_position_for_team`, faithful to
the dynamic behaviour of the Python code: an incomplete tournament prints
and returns `None`; the truthiness test of `self.winner == team_name`
(a numpy comparison) only works when the winner vector has at most one
entry, for more samples numpy raises `ValueError`; and a team failing that
test reaches `team_name not in self.aliases.values()`, which raises
`TypeError`, because the alias table is a pandas DataFrame whose `values`
attribute is an array, not the dict method the code was written against.
The truthiness of the size-zero-or-one comparison array is: some entry
equals the team. -/
def get_furthest_position_for_team (t : PyTournament S) (team : String) :
    Except String (Option String) :=
  if t.is_complete = false then
    Except.ok none
  else if 2 ≤ S then
    Except.error "ValueError: the truth value of an array with more than one element is ambiguous"
  else if ∃ s : Fin S, t.winner s = team then
    Except.ok (some "W")
  else
    Except.error "TypeError: numpy.ndarray object is not callable"

/-- Completed one-sample tournament used by the C3 evidence: AAA won, XXX
appears in no alias column. -/
def bugTournament : PyTournament 1 :=
  { aliases := [("1A", fun _ => "AAA"), ("2B", fun _ => "BBB"), ("1A2B", fun _ => "AAA")]
    is_complete := true
    winner := fun _ => "AAA" }

/-- Two-sample completed tournament used by the C3 evidence. -/
def bugTournament2 : PyTournament 2 :=
  { aliases := [("1A", fun _ => "AAA"), ("2B", fun _ => "BBB"), ("1A2B", fun _ => "AAA")]
    is_complete := true
    winner := fun _ => "AAA" }

/-- C3 evidence: with one sample the winner query answers "W", but a team
absent from every alias column hits the broken DataFrame-as-dict call and
raises `TypeError` instead of returning "G"; with two samples even the
winner query raises `ValueError` instead of giving per-sample answers. -/
theorem get_furthest_position_for_team_raises :
    get_furthest_position_for_team bugTournament "AAA" = Except.ok (some "W")
    ∧ get_furthest_position_for_team bugTournament "XXX"
        = Except.error "TypeError: numpy.ndarray object is not callable"
    ∧ get_furthest_position_for_team bugTournament2 "AAA"
        = Except.error
          "ValueError: the truth value of an array with more than one element is ambiguous" := by
  refine ⟨?_, ?_, ?_⟩ <;> rfl

/-- Points the claim assigns to a team in one match and one sample: 3 to
the winner, 1 to each team on a draw, 0 to the loser, 0 when the team is
not playing.  Stated from the words of the spec, for comparison with
`calc_table`. -/
def match_points_for (team : String) (m : MatchResult S) (s : Fin S) : Nat :=
  if m.home_team = team then
    (if m.away_score s < m.home_score s then 3
     else if m.home_score s = m.away_score s then 1 else 0)
  else if m.away_team = team then
    (if m.home_score s < m.away_score s then 3
     else if m.home_score s = m.away_score s then 1 else 0)
  else 0

/-- Goals the claim credits to a team in one match and one sample. -/
def match_goals_for (team : String) (m : MatchResult S) (s : Fin S) : Nat :=
  if m.home_team = team then m.home_score s
  else if m.away_team = team then m.away_score s else 0

/-- Goals the claim counts against a team in one match and one sample. -/
def match_goals_against (team : String) (m : MatchResult S) (s : Fin S) : Nat :=
  if m.home_team = team then m.away_score s
  else if m.away_team = team then m.home_score s else 0

theorem sum_map_filter_eq (l : List (MatchResult S)) (p : MatchResult S → Bool)
    (f : MatchResult S → Nat) :
    ((l.filter p).map f).sum = (l.map (fun m => if p m then f m else 0)).sum := by
  induction l with
  | nil => rfl
  | cons a l ih =>
    by_cases hp : p a
    · simp [List.filter_cons, hp, ih]
    · simp [List.filter_cons, hp, ih]

theorem sum_map_add (l : List (MatchResult S)) (f g : MatchResult S → Nat) :
    (l.map f).sum + (l.map g).sum = (l.map (fun m => f m + g m)).sum := by
  induction l with
  | nil => rfl
  | cons a l ih =>
    simp only [List.map_cons, List.sum_cons]
    omega

/-- The two masked sums of `calc_table` merge into one per-match sum when
no match has a team against itself. -/
theorem mask_sum_eq (results : List (MatchResult S)) (team : String)
    (hdistinct : ∀ m ∈ results, m.home_team ≠ m.away_team)
    (f g : MatchResult S → Fin S → Nat) (s : Fin S) :
    home_mask_sum results team f s + away_mask_sum results team g s
      = (results.map (fun m =>
          if m.home_team = team then f m s
          else if m.away_team = team then g m s else 0)).sum := by
  unfold home_mask_sum away_mask_sum
  rw [sum_map_filter_eq, sum_map_filter_eq, sum_map_add]
  apply congrArg List.sum
  apply List.map_congr_left
  intro m hm
  by_cases hhome : m.home_team = team
  · have haway : m.away_team ≠ team := fun hc => hdistinct m hm (hhome.trans hc.symm)
    simp [hhome, haway]
  · by_cases haway : m.away_team = team
    · simp [hhome, haway]
    · simp [hhome, haway]

theorem home_pts_eq_claim (m : MatchResult S) (s : Fin S) :
    home_pts m s = (if m.away_score s < m.home_score s then 3
      else if m.home_score s = m.away_score s then 1 else 0) := by
  unfold home_pts
  split_ifs <;> omega

theorem away_pts_eq_claim (m : MatchResult S) (s : Fin S) :
    away_pts m s = (if m.home_score s < m.away_score s then 3
      else if m.home_score s = m.away_score s then 1 else 0) := by
  unfold away_pts
  split_ifs <;> omega

/-- C4: per match, the element-wise score comparison awards 3 points to
the winner, 1 to each team on a draw and 0 to the loser; and each row of
the computed table is the per-sample sum of the points, goals for and
goals against of that team over all of its stored matches (home and
away). -/
theorem calc_table_points_goals (teams : List String) (results : List (MatchResult S))
    (hdistinct : ∀ m ∈ results, m.home_team ≠ m.away_team) (i : Nat) (s : Fin S) :
    (∀ m : MatchResult S,
        home_pts m s
          = (if m.away_score s < m.home_score s then 3
             else if m.home_score s = m.away_score s then 1 else 0)
        ∧ away_pts m s
          = (if m.home_score s < m.away_score s then 3
             else if m.home_score s = m.away_score s then 1 else 0))
    ∧ (calc_table teams results).points i s
        = (results.map (fun m => match_points_for (teams.getD i "") m s)).sum
    ∧ (calc_table teams results).goals_for i s
        = (results.map (fun m => match_goals_for (teams.getD i "") m s)).sum
    ∧ (calc_table teams results).goals_against i s
        = (results.map (fun m => match_goals_against (teams.getD i "") m s)).sum := by
  refine ⟨fun m => ⟨home_pts_eq_claim m s, away_pts_eq_claim m s⟩, ?_, ?_, ?_⟩
  · have hbase : (calc_table teams results).points i s
        = home_mask_sum results (teams.getD i "") home_pts s
          + away_mask_sum results (teams.getD i "") away_pts s := rfl
    rw [hbase, mask_sum_eq results _ hdistinct home_pts away_pts s]
    apply congrArg List.sum
    apply List.map_congr_left
    intro m hm
    unfold match_points_for
    by_cases hhome : m.home_team = teams.getD i ""
    · rw [if_pos hhome, if_pos hhome]
      exact home_pts_eq_claim m s
    · rw [if_neg hhome, if_neg hhome]
      by_cases haway : m.away_team = teams.getD i ""
      · rw [if_pos haway, if_pos haway]
        exact away_pts_eq_claim m s
      · rw [if_neg haway, if_neg haway]
  · have hbase : (calc_table teams results).goals_for i s
        = home_mask_sum results (teams.getD i "") (fun m t => m.home_score t) s
          + away_mask_sum results (teams.getD i "") (fun m t => m.away_score t) s := rfl
    rw [hbase, mask_sum_eq results _ hdistinct _ _ s]
    rfl
  · have hbase : (calc_table teams results).goals_against i s
        = home_mask_sum results (teams.getD i "") (fun m t => m.away_score t) s
          + away_mask_sum results (teams.getD i "") (fun m t => m.home_score t) s := rfl
    rw [hbase, mask_sum_eq results _ hdistinct _ _ s]
    rfl

/-- Witness for C4 on the concrete six-match group. -/
theorem calc_table_points_goals_witness :
    (∀ m ∈ bugResults, m.home_team ≠ m.away_team)
    ∧ (calc_table bugTeams bugResults).points 0 0
        = (bugResults.map (fun m => match_points_for (bugTeams.getD 0 "") m 0)).sum := by
  refine ⟨by decide, ?_⟩
  exact (calc_table_points_goals bugTeams bugResults (by decide) 0 0).2.1

/-- One fixture row of the reference fixture table: stage and the two
nominal team or slot names. -/
structure FixtureRow where
  stage : String
  team_1 : String
  team_2 : String

/-- Concatenation of the two input slot names of a fixture, in order; the
alias key under which its winner column is stored. -/
def fixture_key (f : FixtureRow) : String := f.team_1 ++ f.team_2

/-- Alias column assignment `self.aliases[key] = column`: a pandas
DataFrame overwrites an existing column of that name and appends a fresh
name as a new last column. -/
def set_alias_column (al : List (String × (Fin S → String))) (key : String)
    (col : Fin S → String) : List (String × (Fin S → String)) :=
  if al.any (fun p => p.1 == key) then
    al.map (fun p => if p.1 = key then (key, col) else p)
  else al ++ [(key, col)]

/-- Alias column lookup by name. -/
def alias_lookup (al : List (String × (Fin S → String))) (key : String) :
    Option (Fin S → String) :=
  (al.find? (fun p => p.1 == key)).map (fun p => p.2)

/-- One stage of `Tournament.play_knockout_stages` restricted to the alias
table: the assignment `self.aliases[Team_1 + Team_2] = results` stores,
for each fixture of the stage, the per-sample winner column (the predictor
output, kept abstract in `outcome`) under the concatenated key. -/
def play_knockout_stage (al : List (String × (Fin S → String)))
    (fixtures : List FixtureRow) (outcome : FixtureRow → Fin S → String) :
    List (String × (Fin S → String)) :=
  fixtures.foldl (fun acc f => set_alias_column acc (fixture_key f) (outcome f)) al

theorem alias_lookup_cons_pos (a : String × (Fin S → String))
    (al : List (String × (Fin S → String))) (k : String) (h : a.1 = k) :
    alias_lookup (a :: al) k = some a.2 := by
  unfold alias_lookup
  rw [List.find?_cons_of_pos _ (by simpa using h)]
  rfl

theorem alias_lookup_cons_neg (a : String × (Fin S → String))
    (al : List (String × (Fin S → String))) (k : String) (h : ¬a.1 = k) :
    alias_lookup (a :: al) k = alias_lookup al k := by
  unfold alias_lookup
  rw [List.find?_cons_of_neg _ (by simpa using h)]

theorem alias_lookup_append_of_isSome (al al2 : List (String × (Fin S → String)))
    (k : String) (h : (alias_lookup al k).isSome) :
    alias_lookup (al ++ al2) k = alias_lookup al k := by
  induction al with
  | nil => simp [alias_lookup] at h
  | cons a al ih =>
    rw [List.cons_append]
    by_cases ha : a.1 = k
    · rw [alias_lookup_cons_pos _ _ _ ha, alias_lookup_cons_pos _ _ _ ha]
    · rw [alias_lookup_cons_neg _ _ _ ha] at h
      rw [alias_lookup_cons_neg _ _ _ ha, alias_lookup_cons_neg _ _ _ ha]
      exact ih h

theorem alias_lookup_append_of_none (al al2 : List (String × (Fin S → String)))
    (k : String) (h : alias_lookup al k = none) :
    alias_lookup (al ++ al2) k = alias_lookup al2 k := by
  induction al with
  | nil => rfl
  | cons a al ih =>
    by_cases ha : a.1 = k
    · rw [alias_lookup_cons_pos _ _ _ ha] at h
      cases h
    · rw [alias_lookup_cons_neg _ _ _ ha] at h
      rw [List.cons_append, alias_lookup_cons_neg _ _ _ ha]
      exact ih h

theorem set_alias_column_fresh (al : List (String × (Fin S → String))) (key : String)
    (col : Fin S → String) (h : alias_lookup al key = none) :
    set_alias_column al key col = al ++ [(key, col)] := by
  unfold set_alias_column
  have hfind : al.find? (fun p => p.1 == key) = none := by
    unfold alias_lookup at h
    cases hf : al.find? (fun p => p.1 == key)
    · rfl
    · rw [hf] at h
      cases h
  have hany : al.any (fun p => p.1 == key) = false := by
    rw [List.any_eq_false]
    intro x hx
    simpa using List.find?_eq_none.mp hfind x hx
  rw [hany]
  simp

/-- C9: one knockout stage over fresh, pairwise distinct concatenated keys
adds exactly one column per fixture — keyed by the concatenation of the
two input slot names and holding the predictor output — and neither
removes nor modifies any previously existing alias column. -/
theorem play_knockout_stage_frame (al : List (String × (Fin S → String)))
    (fixtures : List FixtureRow) (outcome : FixtureRow → Fin S → String)
    (hfresh : ∀ f ∈ fixtures, alias_lookup al (fixture_key f) = none)
    (hdk : fixtures.Pairwise (fun f g => fixture_key f ≠ fixture_key g)) :
    (∀ k, (alias_lookup al k).isSome →
        alias_lookup (play_knockout_stage al fixtures outcome) k = alias_lookup al k)
    ∧ (play_knockout_stage al fixtures outcome).length = al.length + fixtures.length
    ∧ ∀ f ∈ fixtures,
        alias_lookup (play_knockout_stage al fixtures outcome) (fixture_key f)
          = some (outcome f) := by
  induction fixtures generalizing al with
  | nil =>
    refine ⟨fun k hk => rfl, rfl, ?_⟩
    intro f hf
    cases hf
  | cons f fs ih =>
    have hf0 : alias_lookup al (fixture_key f) = none := hfresh f (List.mem_cons_self f fs)
    have hset : set_alias_column al (fixture_key f) (outcome f)
        = al ++ [(fixture_key f, outcome f)] := set_alias_column_fresh _ _ _ hf0
    have hstep : play_knockout_stage al (f :: fs) outcome
        = play_knockout_stage (al ++ [(fixture_key f, outcome f)]) fs outcome := by
      unfold play_knockout_stage
      rw [List.foldl_cons, hset]
    have hdk1 := List.pairwise_cons.mp hdk
    have hnewsome : (alias_lookup (al ++ [(fixture_key f, outcome f)]) (fixture_key f)).isSome := by
      rw [alias_lookup_append_of_none _ _ _ hf0, alias_lookup_cons_pos _ _ _ rfl]
      rfl
    have hfresh1 : ∀ g ∈ fs,
        alias_lookup (al ++ [(fixture_key f, outcome f)]) (fixture_key g) = none := by
      intro g hg
      rw [alias_lookup_append_of_none _ _ _ (hfresh g (List.mem_cons_of_mem f hg)),
        alias_lookup_cons_neg _ _ _ (hdk1.1 g hg)]
      rfl
    obtain ⟨ih1, ih2, ih3⟩ := ih (al ++ [(fixture_key f, outcome f)]) hfresh1 hdk1.2
    refine ⟨?_, ?_, ?_⟩
    · intro k hk
      rw [hstep, ih1 k (by rw [alias_lookup_append_of_isSome _ _ _ hk]; exact hk),
        alias_lookup_append_of_isSome _ _ _ hk]
    · rw [hstep, ih2]
      have hone : (al ++ [(fixture_key f, outcome f)]).length = al.length + 1 := by
        rw [List.length_append]
        rfl
      rw [hone, List.length_cons]
      omega
    · intro g hg
      rcases List.mem_cons.mp hg with rfl | hg2
      · rw [hstep, ih1 (fixture_key g) hnewsome,
          alias_lookup_append_of_none _ _ _ hf0, alias_lookup_cons_pos _ _ _ rfl]
      · rw [hstep]
        exact ih3 g hg2

/-- Alias table used by the C9 witness. -/
def wAliases : List (String × (Fin 1 → String)) :=
  [("1A", fun _ => "AAA"), ("2B", fun _ => "BBB")]

/-- First knockout fixture of the C9 witness. -/
def wFix1 : FixtureRow := ⟨"R16", "1A", "2B"⟩

/-- Second knockout fixture of the C9 witness. -/
def wFix2 : FixtureRow := ⟨"R16", "1C", "2D"⟩

/-- Predictor output of the C9 witness. -/
def wOutcome : FixtureRow → Fin 1 → String := fun _ _ => "AAA"

/-- Witness for C9 at a concrete alias table and stage. -/
theorem play_knockout_stage_frame_witness :
    (∀ f ∈ [wFix1, wFix2], alias_lookup wAliases (fixture_key f) = none)
    ∧ alias_lookup (play_knockout_stage wAliases [wFix1, wFix2] wOutcome) "1A"
        = alias_lookup wAliases "1A" := by
  have hfresh : ∀ f ∈ [wFix1, wFix2], alias_lookup wAliases (fixture_key f) = none := by
    intro f hf
    rcases List.mem_cons.mp hf with rfl | hf2
    · rfl
    · rcases List.mem_cons.mp hf2 with rfl | hf3
      · rfl
      · cases hf3
  have hdk : ([wFix1, wFix2] : List FixtureRow).Pairwise
      (fun f g => fixture_key f ≠ fixture_key g) := by
    refine List.Pairwise.cons ?_ (List.Pairwise.cons (fun g hg => by cases hg)
      List.Pairwise.nil)
    intro g hg
    rcases List.mem_cons.mp hg with rfl | hg2
    · decide
    · cases hg2
  refine ⟨hfresh, ?_⟩
  exact (play_knockout_stage_frame wAliases [wFix1, wFix2] wOutcome hfresh hdk).1 "1A" rfl

/-- Python set equality `set([a, b]) == set([c, d])`. -/
def same_pair (a b c d : String) : Prop :=
  (a = c ∧ b = d) ∨ (a = d ∧ b = c)

instance (a b c d : String) : Decidable (same_pair a b c d) := by
  unfold same_pair
  infer_instance

/-- Tournament reference state read by `Tournament.add_result`: the fixture
rows of fixtures_df, the (Team, Group) rows of teams_df, and the group
names present in the groups dictionary. -/
structure TournamentSetup where
  fixtures : List FixtureRow
  roster : List (String × String)
  group_names : List String

/-- Modelled from the spec: `utils.find_group` (a repository function not
under src) resolves a team name to its group through the team-to-group
roster mapping of the reference data. -/
def find_group (team : String) (roster : List (String × String)) : Option String :=
  (roster.find? (fun p => p.1 == team)).map (fun p => p.2)

/-- Loop of `Tournament.add_result`: rows of another stage are skipped; a
Group-stage row matching the unordered team pair reaches
`self.groups[group].add_result(...)`, which raises `AttributeError`
because the `Group` class defines only `add_results`; if no row matches,
the loop runs out and nothing has been touched. -/
def add_result_loop (t : TournamentSetup) (team_1 team_2 stage : String) :
    List FixtureRow → Except String TournamentSetup
  | [] => Except.ok t
  | row :: rest =>
    if stage ≠ row.stage then add_result_loop t team_1 team_2 stage rest
    else if stage = "Group" then
      (if same_pair row.team_1 row.team_2 team_1 team_2 then
        match find_group team_1 t.roster with
        | none => Except.error "KeyError: team not found in teams_df"
        | some grp =>
          if grp ∈ t.group_names then
            Except.error "AttributeError: Group object has no attribute add_result"
          else Except.error "KeyError: unknown group"
      else add_result_loop t team_1 team_2 stage rest)
    else add_result_loop t team_1 team_2 stage rest

/-- Embedding of `Tournament.add_result`.  The scores are unused: the call
that would consume them never resolves. -/
def add_result (t : TournamentSetup) (team_1 team_2 : String)
    (score_1 score_2 : Int) (stage : String) : Except String TournamentSetup :=
  add_result_loop t team_1 team_2 stage t.fixtures

theorem add_result_loop_ok_or_error (t : TournamentSetup) (team_1 team_2 stage : String)
    (l : List FixtureRow) :
    add_result_loop t team_1 team_2 stage l = Except.ok t
      ∨ ∃ e, add_result_loop t team_1 team_2 stage l = Except.error e := by
  induction l with
  | nil => exact Or.inl rfl
  | cons row rest ih =>
    unfold add_result_loop
    by_cases h1 : stage ≠ row.stage
    · rw [if_pos h1]
      exact ih
    · rw [if_neg h1]
      by_cases h2 : stage = "Group"
      · rw [if_pos h2]
        by_cases h3 : same_pair row.team_1 row.team_2 team_1 team_2
        · rw [if_pos h3]
          cases hg : find_group team_1 t.roster with
          | none => exact Or.inr ⟨_, rfl⟩
          | some grp =>
            dsimp only
            by_cases h4 : grp ∈ t.group_names
            · rw [if_pos h4]
              exact Or.inr ⟨_, rfl⟩
            · rw [if_neg h4]
              exact Or.inr ⟨_, rfl⟩
        · rw [if_neg h3]
          exact ih
      · rw [if_neg h2]
        exact ih

theorem add_result_loop_no_match (t : TournamentSetup) (team_1 team_2 stage : String)
    (l : List FixtureRow)
    (h : ∀ row ∈ l, ¬(stage = row.stage ∧ stage = "Group"
        ∧ same_pair row.team_1 row.team_2 team_1 team_2)) :
    add_result_loop t team_1 team_2 stage l = Except.ok t := by
  induction l with
  | nil => rfl
  | cons row rest ih =>
    unfold add_result_loop
    by_cases h1 : stage ≠ row.stage
    · rw [if_pos h1]
      exact ih (fun r hr => h r (List.mem_cons_of_mem row hr))
    · rw [if_neg h1]
      push_neg at h1
      by_cases h2 : stage = "Group"
      · rw [if_pos h2]
        have h3 : ¬same_pair row.team_1 row.team_2 team_1 team_2 := by
          intro hc
          exact h row (List.mem_cons_self row rest) ⟨h1, h2, hc⟩
        rw [if_neg h3]
        exact ih (fun r hr => h r (List.mem_cons_of_mem row hr))
      · rw [if_neg h2]
        exact ih (fun r hr => h r (List.mem_cons_of_mem row hr))

theorem add_result_loop_match (t : TournamentSetup) (team_1 team_2 : String)
    (l : List FixtureRow) (grp : String)
    (hg : find_group team_1 t.roster = some grp) (hmem : grp ∈ t.group_names)
    (h : ∃ row ∈ l, row.stage = "Group" ∧ same_pair row.team_1 row.team_2 team_1 team_2) :
    add_result_loop t team_1 team_2 "Group" l
      = Except.error "AttributeError: Group object has no attribute add_result" := by
  induction l with
  | nil =>
    rcases h with ⟨row, hr, _⟩
    cases hr
  | cons row rest ih =>
    unfold add_result_loop
    by_cases hp : row.stage = "Group" ∧ same_pair row.team_1 row.team_2 team_1 team_2
    · obtain ⟨hps, hpp⟩ := hp
      rw [if_neg (fun hc => hc hps.symm), if_pos rfl, if_pos hpp, hg]
      dsimp only
      rw [if_pos hmem]
    · have hrest : ∃ r ∈ rest, r.stage = "Group"
          ∧ same_pair r.team_1 r.team_2 team_1 team_2 := by
        rcases h with ⟨r, hr, hrs, hrp⟩
        rcases List.mem_cons.mp hr with rfl | hr2
        · exact absurd ⟨hrs, hrp⟩ hp
        · exact ⟨r, hr2, hrs, hrp⟩
      by_cases h1 : "Group" ≠ row.stage
      · rw [if_pos h1]
        exact ih hrest
      · rw [if_neg h1, if_pos rfl]
        push_neg at h1
        have h3 : ¬same_pair row.team_1 row.team_2 team_1 team_2 :=
          fun hc => hp ⟨h1.symm, hc⟩
        rw [if_neg h3]
        exact ih hrest

/-- C10: `Tournament.add_result` never records a result into a group.
When every fixture row fails the stage-and-pair match the call returns
with the state unchanged; when a Group-stage fixture matches the unordered
pair (and the team resolves to an existing group), the call raises
`AttributeError` because it invokes `Group.add_result` while the class
only defines `add_results`; and in every case the call either returns the
unchanged state or raises. -/
theorem add_result_never_records (t : TournamentSetup) (team_1 team_2 : String)
    (s1 s2 : Int) (stage : String) :
    ((∀ row ∈ t.fixtures, ¬(stage = row.stage ∧ stage = "Group"
        ∧ same_pair row.team_1 row.team_2 team_1 team_2)) →
      add_result t team_1 team_2 s1 s2 stage = Except.ok t)
    ∧ (stage = "Group" →
      (∃ row ∈ t.fixtures, row.stage = "Group"
          ∧ same_pair row.team_1 row.team_2 team_1 team_2) →
      ∀ grp, find_group team_1 t.roster = some grp → grp ∈ t.group_names →
      add_result t team_1 team_2 s1 s2 stage
        = Except.error "AttributeError: Group object has no attribute add_result")
    ∧ (add_result t team_1 team_2 s1 s2 stage = Except.ok t
        ∨ ∃ e, add_result t team_1 team_2 s1 s2 stage = Except.error e) := by
  refine ⟨?_, ?_, add_result_loop_ok_or_error t team_1 team_2 stage t.fixtures⟩
  · intro h
    exact add_result_loop_no_match t team_1 team_2 stage t.fixtures h
  · intro hstage hex grp hg hmem
    subst hstage
    exact add_result_loop_match t team_1 team_2 t.fixtures grp hg hmem hex

/-- Tournament setup used by the C10 witness. -/
def wSetup : TournamentSetup :=
  { fixtures := [⟨"Group", "AAA", "BBB"⟩, ⟨"R16", "1A", "2B"⟩]
    roster := [("AAA", "A"), ("BBB", "A")]
    group_names := ["A"] }

/-- Witness for C10: no-op on an unmatched call, `AttributeError` on a
matching Group-stage call. -/
theorem add_result_never_records_witness :
    add_result wSetup "AAA" "BBB" 1 0 "R16" = Except.ok wSetup
    ∧ add_result wSetup "BBB" "AAA" 1 0 "Group"
        = Except.error "AttributeError: Group object has no attribute add_result" := by
  constructor
  · exact (add_result_never_records wSetup "AAA" "BBB" 1 0 "R16").1 (by decide)
  · exact (add_result_never_records wSetup "BBB" "AAA" 1 0 "Group").2.1 rfl
      ⟨⟨"Group", "AAA", "BBB"⟩, List.mem_cons_self _ _, rfl, by decide⟩
      "A" rfl (by decide)

end WCT
